import Mathlib

/-!
Verification development for the TrailQuest trip-planning app.

The repository ships `src/App.tsx` (the view controller and its handlers)
and `src/index.tsx` (the React mount point).  The custom hooks it imports
(`useItinerary`, `useLocalStorage`, `useAISuggestions`, `useSpeech`) and the
type declarations (`types/types.ts`) are not part of the provided sources,
so those components are modelled from the specification; everything taken
from `App.tsx` is embedded directly from that file.
-/

namespace TrailQuest

/-- Modelled from the spec: `types/types.ts` is not under `src/`.  A POI has an
identifier, name, category, estimated visit duration, estimated cost, a
geographic coordinate, and a best-visit-time hint (here encoded as a numeric
rank so the optimizer can order by it). -/
structure POI where
  id : Nat
  name : String
  category : String
  duration : Nat
  cost : Nat
  lat : Int
  lng : Int
  bestTime : Nat
deriving DecidableEq, Repr

/-- The itinerary model state: an ordered list of selected POIs. -/
abbrev Itinerary := List POI

/-- Modelled from the spec: `useItinerary` is not under `src/`.
`add(POI)` rejects duplicates (a POI whose identifier is already present)
and otherwise appends at the end. -/
def addPOI (p : POI) (it : Itinerary) : Itinerary :=
  if it.any (fun q => q.id == p.id) then it else it ++ [p]

/-- Modelled from the spec: `useItinerary` is not under `src/`.
`remove(id)` removes the matching entry and is a no-op if absent. -/
def removePOI (i : Nat) (it : Itinerary) : Itinerary :=
  it.filter (fun q => q.id != i)

/-- Modelled from the spec: `useItinerary` is not under `src/`.
`clear()` empties the list. -/
def clearItinerary : Itinerary := []

/-- Modelled from the spec: `useItinerary` is not under `src/`.
`totalTime()` sums the entries' estimated visit durations (a fold over the
current entries, as a JS `reduce` would). -/
def calculateTotalTime (it : Itinerary) : Nat :=
  it.foldl (fun acc p => acc + p.duration) 0

/-- Modelled from the spec: `useItinerary` is not under `src/`.
`totalCost()` sums the entries' estimated costs. -/
def calculateTotalCost (it : Itinerary) : Nat :=
  it.foldl (fun acc p => acc + p.cost) 0

/-- Insert a POI into a list ordered by best-visit-time rank, keeping the
existing order among equal ranks (stable insertion). -/
def insertByBestTime (p : POI) : List POI → List POI
  | [] => [p]
  | q :: rest =>
      if p.bestTime ≤ q.bestTime then p :: q :: rest
      else q :: insertByBestTime p rest

/-- Modelled from the spec: `useItinerary` is not under `src/`.
`optimize()` deterministically reorders the entries by their best-visit-time
hints (the spec leaves the exact heuristic as an implementation choice but
requires a deterministic reorder that neither adds nor drops entries; the
design notes suggest sorting by the best-visit-time hint).  Implemented as a
stable insertion sort on the hint rank. -/
def optimizeItinerary (it : Itinerary) : Itinerary :=
  it.foldr insertByBestTime []

/-- The itinerary operations a user can issue from the planning view. -/
inductive ItineraryOp where
  | add (p : POI)
  | remove (i : Nat)
deriving Repr

/-- Apply one itinerary operation. -/
def applyOp (op : ItineraryOp) (it : Itinerary) : Itinerary :=
  match op with
  | .add p => addPOI p it
  | .remove i => removePOI i it

/-- Run a sequence of add/remove operations from the empty itinerary. -/
def runOps (ops : List ItineraryOp) : Itinerary :=
  ops.foldl (fun it op => applyOp op it) clearItinerary

/-- The itinerary has no two entries with the same POI identifier. -/
def NoDupIds (it : Itinerary) : Prop :=
  (it.map POI.id).Nodup

/-- Modelled from the spec: `types/types.ts` is not under `src/`.
Mobility level enum: low / moderate / high. -/
inductive MobilityLevel where
  | low
  | moderate
  | high
deriving DecidableEq, Repr

/-- Modelled from the spec: `types/types.ts` is not under `src/`.
Time preference: an enum of concrete times of day or "flexible". -/
inductive TimePreference where
  | morning
  | afternoon
  | evening
  | flexible
deriving DecidableEq, Repr

/-- Modelled from the spec: `types/types.ts` is not under `src/`.
User preferences: a set of interest tags, a mobility level and a time
preference. -/
structure UserPreferences where
  interests : List String
  mobilityLevel : MobilityLevel
  timePreference : TimePreference
deriving DecidableEq, Repr

/-- `DEFAULT_USER_PREFERENCES` from `App.tsx`: empty interests, moderate
mobility, flexible time preference. -/
def DEFAULT_USER_PREFERENCES : UserPreferences :=
  { interests := []
    mobilityLevel := .moderate
    timePreference := .flexible }

/-- A TypeScript `Partial<UserPreferences>` update object: each field is
present (`some`) or absent (`none`). -/
structure UserPreferencesUpdate where
  interests : Option (List String)
  mobilityLevel : Option MobilityLevel
  timePreference : Option TimePreference
deriving DecidableEq, Repr

/-- The spread-merge `{ ...prev, ...updates }` used by
`handleUserPreferencesUpdate` in `App.tsx`: a key present in `updates`
overwrites the previous value, an absent key keeps it. -/
def mergePreferences (prev : UserPreferences) (updates : UserPreferencesUpdate) :
    UserPreferences :=
  { interests := updates.interests.getD prev.interests
    mobilityLevel := updates.mobilityLevel.getD prev.mobilityLevel
    timePreference := updates.timePreference.getD prev.timePreference }

/-- `ViewType` from the spec's data model: planning / itinerary / settings. -/
inductive ViewType where
  | planning
  | itinerary
  | settings
deriving DecidableEq, Repr

/-- The portion of the `AdventureApp` component state in `App.tsx` that the
handlers under verification read or write: the selected region, the
itinerary, the single ephemeral error slot, and the announcements made via
the speech adapter. -/
structure AppState where
  selectedRegion : String
  itinerary : Itinerary
  error : Option String
  announcements : List String
deriving Repr

/-- `handleRegionChange` from `App.tsx`: stores the new region, then clears
the itinerary when the argument differs from the previously selected region
(the comparison uses the region value captured before the update, exactly as
the callback closes over `selectedRegion`). -/
def handleRegionChange (region : String) (s : AppState) : AppState :=
  let s1 := { s with selectedRegion := region }
  if region ≠ s.selectedRegion then { s1 with itinerary := clearItinerary } else s1

/-- `handleOptimizeItinerary` from `App.tsx`.  The call to the hook's
`optimizeItinerary` either returns the reordered list or throws; the
argument carries that outcome (`Except.error` is a thrown exception, whose
atomicity — no partial reorder — is modelled from the spec since
`useItinerary` is not under `src/`).  On success the itinerary is replaced
and a confirmation is spoken; on failure the exception is caught, the error
slot is set, and nothing else changes. -/
def handleOptimizeItinerary (optResult : Except String Itinerary) (s : AppState) :
    AppState :=
  match optResult with
  | .ok newIt =>
      { s with
        itinerary := newIt
        announcements :=
          s.announcements ++
            ["Itinerary optimized for best visiting times and travel efficiency."] }
  | .error _ =>
      { s with error := some "Failed to optimize itinerary. Please try again." }

/-- An AI suggestion as surfaced to `applyAISuggestion` in `App.tsx`: a
title, a rationale, and the referenced POI or tag. -/
structure AISuggestion where
  title : String
  rationale : String
  referencedPOI : Option Nat
deriving DecidableEq, Repr

/-- `applyAISuggestion` from `App.tsx` (the callback passed to
`AISuggestionsPanel`): its body only announces the suggestion's title via
the speech adapter; it performs no itinerary operation. -/
def applyAISuggestion (suggestion : AISuggestion) (s : AppState) : AppState :=
  { s with
    announcements :=
      s.announcements ++ ["Applied AI suggestion: " ++ suggestion.title] }

/-- A value persisted in browser local storage, tagged by its type (the hook
serializes/deserializes per key; `App.tsx` stores strings, booleans, the view
selector and the structured preference object). -/
inductive StoredValue where
  | str (s : String)
  | bool (b : Bool)
  | view (v : ViewType)
  | prefs (p : UserPreferences)
deriving DecidableEq, Repr

/-- The key-value contents of browser local storage. -/
abbrev Store := String → Option StoredValue

/-- Local storage before any write: every key is absent. -/
def emptyStore : Store := fun _ => none

/-- Modelled from the spec: `useLocalStorage` is not under `src/`.
A write persists the value under its key immediately. -/
def writeStore (st : Store) (k : String) (v : StoredValue) : Store :=
  fun q => if q = k then some v else st q

/-- Modelled from the spec: `useLocalStorage` is not under `src/`.
Reading a string-typed key returns the stored string or the default. -/
def readStringKey (st : Store) (k : String) (dflt : String) : String :=
  match st k with
  | some (.str s) => s
  | _ => dflt

/-- Modelled from the spec: read of a boolean-typed key with default. -/
def readBoolKey (st : Store) (k : String) (dflt : Bool) : Bool :=
  match st k with
  | some (.bool b) => b
  | _ => dflt

/-- Modelled from the spec: read of the view-selector key with default. -/
def readViewKey (st : Store) (k : String) (dflt : ViewType) : ViewType :=
  match st k with
  | some (.view v) => v
  | _ => dflt

/-- Modelled from the spec: read of the preference-object key with default. -/
def readPrefsKey (st : Store) (k : String) (dflt : UserPreferences) : UserPreferences :=
  match st k with
  | some (.prefs p) => p
  | _ => dflt

/-- `selectedRegion` as wired in `App.tsx`: default `""`. -/
def readSelectedRegion (st : Store) : String := readStringKey st "selectedRegion" ""

/-- `startingPoint` as wired in `App.tsx`: default `""`. -/
def readStartingPoint (st : Store) : String := readStringKey st "startingPoint" ""

/-- `currentView` as wired in `App.tsx`: default `planning`. -/
def readCurrentView (st : Store) : ViewType := readViewKey st "currentView" .planning

/-- `privacyMode` as wired in `App.tsx`: default `false`. -/
def readPrivacyMode (st : Store) : Bool := readBoolKey st "privacyMode" false

/-- `offlineMode` as wired in `App.tsx`: default `false`. -/
def readOfflineMode (st : Store) : Bool := readBoolKey st "offlineMode" false

/-- `voiceEnabled` as wired in `App.tsx`: default `false`. -/
def readVoiceEnabled (st : Store) : Bool := readBoolKey st "voiceEnabled" false

/-- `userPreferences` as wired in `App.tsx`: default `DEFAULT_USER_PREFERENCES`. -/
def readUserPreferences (st : Store) : UserPreferences :=
  readPrefsKey st "userPreferences" DEFAULT_USER_PREFERENCES

/-- The single ephemeral error slot of `App.tsx` together with the pending
self-clear timer, in discrete time (seconds).  `deadline` is the instant at
which the currently scheduled 5-second timer fires, if one is pending. -/
structure ErrorSlot where
  message : Option String
  deadline : Option Nat
deriving DecidableEq, Repr

/-- `setError(msg)` at time `t`, followed by the error `useEffect` of
`App.tsx`: the effect cleanup cancels any previously scheduled timer (so the
old deadline is discarded) and schedules a fresh 5-second timer; the new
message occupies the single slot. -/
def setErrorAt (t : Nat) (msg : String) (_slot : ErrorSlot) : ErrorSlot :=
  { message := some msg, deadline := some (t + 5) }

/-- Time advancing to instant `u`: if the scheduled timer fires now, its
callback `setError(null)` clears the slot; otherwise nothing happens. -/
def tickError (u : Nat) (slot : ErrorSlot) : ErrorSlot :=
  if slot.deadline = some u then { message := none, deadline := none } else slot

/-- POI A of the spec's worked example: duration 60, cost 0. -/
def poiA : POI :=
  { id := 1, name := "A", category := "historic", duration := 60, cost := 0,
    lat := 37, lng := -80, bestTime := 2 }

/-- POI B of the spec's worked example: duration 90, cost 15. -/
def poiB : POI :=
  { id := 2, name := "B", category := "scenic", duration := 90, cost := 15,
    lat := 38, lng := -79, bestTime := 1 }

/-- A sample app state used to instantiate the handler theorems. -/
def sampleState : AppState :=
  { selectedRegion := "Blue Ridge Mountains, VA", itinerary := [poiA],
    error := none, announcements := [] }

theorem noDupIds_addPOI (p : POI) {it : Itinerary} (h : NoDupIds it) :
    NoDupIds (addPOI p it) := by
  rw [addPOI]
  split
  · exact h
  · rename_i hany
    have hid : ∀ q ∈ it, q.id ≠ p.id := by
      intro q hq hqe
      exact hany (List.any_eq_true.mpr ⟨q, hq, by simp [hqe]⟩)
    simpa [NoDupIds, List.nodup_append] using ⟨h, hid⟩

theorem noDupIds_removePOI (i : Nat) {it : Itinerary} (h : NoDupIds it) :
    NoDupIds (removePOI i it) :=
  List.Nodup.sublist ((it.filter_sublist).map POI.id) h

theorem noDupIds_applyOp (op : ItineraryOp) {it : Itinerary} (h : NoDupIds it) :
    NoDupIds (applyOp op it) := by
  cases op with
  | add p => exact noDupIds_addPOI p h
  | remove i => exact noDupIds_removePOI i h

theorem noDupIds_foldl (ops : List ItineraryOp) (it : Itinerary) (h : NoDupIds it) :
    NoDupIds (ops.foldl (fun acc op => applyOp op acc) it) := by
  induction ops generalizing it with
  | nil => exact h
  | cons op rest ih => exact ih _ (noDupIds_applyOp op h)

theorem insertByBestTime_perm (p : POI) (l : List POI) :
    List.Perm (insertByBestTime p l) (p :: l) := by
  induction l with
  | nil => exact List.Perm.refl _
  | cons q rest ih =>
      rw [insertByBestTime]
      split
      · exact List.Perm.refl _
      · exact (ih.cons q).trans (List.Perm.swap p q rest)

theorem optimizeItinerary_perm (it : Itinerary) :
    List.Perm (optimizeItinerary it) it := by
  induction it with
  | nil => exact List.Perm.refl _
  | cons p rest ih =>
      exact (insertByBestTime_perm p (optimizeItinerary rest)).trans (ih.cons p)

/-- The relation the optimizer sorts by: ascending best-visit-time rank. -/
def BestTimeOrdered (l : List POI) : Prop :=
  l.Pairwise (fun a b => a.bestTime ≤ b.bestTime)

theorem insertByBestTime_ordered (p : POI) {l : List POI}
    (h : BestTimeOrdered l) : BestTimeOrdered (insertByBestTime p l) := by
  induction l with
  | nil => simp [insertByBestTime, BestTimeOrdered]
  | cons q rest ih =>
      rcases List.pairwise_cons.mp h with ⟨hq, hrest⟩
      rw [insertByBestTime]
      split
      · rename_i hle
        refine List.pairwise_cons.mpr ⟨?_, h⟩
        intro b hb
        rcases List.mem_cons.mp hb with rfl | hb
        · exact hle
        · exact le_trans hle (hq b hb)
      · rename_i hgt
        push_neg at hgt
        refine List.pairwise_cons.mpr ⟨?_, ih hrest⟩
        intro b hb
        rcases List.mem_cons.mp ((insertByBestTime_perm p rest).mem_iff.mp hb) with
          rfl | hb
        · exact le_of_lt hgt
        · exact hq b hb

theorem optimizeItinerary_ordered (it : Itinerary) :
    BestTimeOrdered (optimizeItinerary it) := by
  induction it with
  | nil => simp [optimizeItinerary, BestTimeOrdered]
  | cons p rest ih => exact insertByBestTime_ordered p ih

theorem optimizeItinerary_eq_of_ordered {l : List POI} (h : BestTimeOrdered l) :
    optimizeItinerary l = l := by
  induction l with
  | nil => rfl
  | cons p rest ih =>
      rcases List.pairwise_cons.mp h with ⟨hp, hrest⟩
      show insertByBestTime p (optimizeItinerary rest) = p :: rest
      rw [ih hrest]
      cases rest with
      | nil => rfl
      | cons q r =>
          rw [insertByBestTime, if_pos (hp q (List.mem_cons_self q r))]

theorem foldl_add_duration (it : Itinerary) (n : Nat) :
    it.foldl (fun acc p => acc + p.duration) n = n + (it.map POI.duration).sum := by
  induction it generalizing n with
  | nil => simp
  | cons p rest ih => simp [List.foldl_cons, ih, Nat.add_assoc]

theorem foldl_add_cost (it : Itinerary) (n : Nat) :
    it.foldl (fun acc p => acc + p.cost) n = n + (it.map POI.cost).sum := by
  induction it generalizing n with
  | nil => simp
  | cons p rest ih => simp [List.foldl_cons, ih, Nat.add_assoc]

/-- Claim C1: every sequence of add/remove operations from the empty
itinerary leaves no two entries with the same POI identifier; `add` rejects
a POI whose identifier is already present and otherwise appends it at the
end. -/
theorem claim_C1 :
    (∀ ops : List ItineraryOp, NoDupIds (runOps ops)) ∧
    (∀ (p : POI) (it : Itinerary), (∃ q ∈ it, q.id = p.id) → addPOI p it = it) ∧
    (∀ (p : POI) (it : Itinerary), (∀ q ∈ it, q.id ≠ p.id) →
      addPOI p it = it ++ [p]) := by
  refine ⟨fun ops => noDupIds_foldl ops clearItinerary (by simp [NoDupIds, clearItinerary]),
    ?_, ?_⟩
  · intro p it hex
    rcases hex with ⟨q, hq, hid⟩
    rw [addPOI, if_pos]
    exact List.any_eq_true.mpr ⟨q, hq, by simp [hid]⟩
  · intro p it h
    rw [addPOI, if_neg]
    intro hany
    rcases List.any_eq_true.mp hany with ⟨q, hq, hid⟩
    exact h q hq (by simpa using hid)

/-- Concrete instance of C1: a duplicate add is rejected, a fresh add is
appended, and a run of operations has no duplicate identifiers. -/
theorem claim_C1_witness :
    NoDupIds (runOps [ItineraryOp.add poiA, ItineraryOp.add poiA,
      ItineraryOp.add poiB]) ∧
    addPOI poiA [poiA] = [poiA] ∧
    addPOI poiB [poiA] = [poiA] ++ [poiB] :=
  ⟨claim_C1.1 _,
   claim_C1.2.1 poiA [poiA] ⟨poiA, by simp, rfl⟩,
   claim_C1.2.2 poiB [poiA] (by decide)⟩

/-- Claim C2: `optimize()` is a permutation — the multiset of entries is
unchanged, no entry added or dropped — and a second `optimize()` right after,
with no other mutation in between, returns the same order. -/
theorem claim_C2 (it : Itinerary) :
    ((optimizeItinerary it : List POI) : Multiset POI) = (it : Multiset POI) ∧
    optimizeItinerary (optimizeItinerary it) = optimizeItinerary it :=
  ⟨Multiset.coe_eq_coe.mpr (optimizeItinerary_perm it),
   optimizeItinerary_eq_of_ordered (optimizeItinerary_ordered it)⟩

/-- Claim C3: `totalTime()`/`totalCost()` are the sums of the entries'
durations/costs, `0` on the empty itinerary, and the spec's worked example
(A: duration 60 cost 0, B: duration 90 cost 15) gives 150/15, then 90/15
after removing A. -/
theorem claim_C3 :
    calculateTotalTime clearItinerary = 0 ∧
    calculateTotalCost clearItinerary = 0 ∧
    (∀ it : Itinerary, calculateTotalTime it = (it.map POI.duration).sum) ∧
    (∀ it : Itinerary, calculateTotalCost it = (it.map POI.cost).sum) ∧
    calculateTotalTime (addPOI poiB (addPOI poiA clearItinerary)) = 150 ∧
    calculateTotalCost (addPOI poiB (addPOI poiA clearItinerary)) = 15 ∧
    calculateTotalTime (removePOI poiA.id
      (addPOI poiB (addPOI poiA clearItinerary))) = 90 ∧
    calculateTotalCost (removePOI poiA.id
      (addPOI poiB (addPOI poiA clearItinerary))) = 15 := by
  refine ⟨rfl, rfl, ?_, ?_, rfl, rfl, rfl, rfl⟩
  · intro it; simpa using foldl_add_duration it 0
  · intro it; simpa using foldl_add_cost it 0

/-- Claim C4: after the region-change handler runs with a region different
from the current one, the itinerary is empty, whatever it held before. -/
theorem claim_C4 (s : AppState) (region : String)
    (h : region ≠ s.selectedRegion) :
    (handleRegionChange region s).itinerary = [] := by
  simp [handleRegionChange, h, clearItinerary]

/-- Concrete instance of C4: switching the sample state to a new region
empties its one-entry itinerary. -/
theorem claim_C4_witness :
    (handleRegionChange "Historic Boston, MA" sampleState).itinerary = [] :=
  claim_C4 sampleState "Historic Boston, MA" (by decide)

/-- Claim C5: when `optimizeItinerary()` throws, the exception is caught at
the call site, the transient error message is set, and the itinerary (and the
rest of the state) is exactly as before the call. -/
theorem claim_C5 (s : AppState) (e : String) :
    (handleOptimizeItinerary (Except.error e) s).itinerary = s.itinerary ∧
    (handleOptimizeItinerary (Except.error e) s).error =
      some "Failed to optimize itinerary. Please try again." ∧
    (handleOptimizeItinerary (Except.error e) s).selectedRegion =
      s.selectedRegion ∧
    (handleOptimizeItinerary (Except.error e) s).announcements =
      s.announcements :=
  ⟨rfl, rfl, rfl, rfl⟩

/-- Claim C6: preferences are mutated only by merge-update — each field named
in the partial update takes the updated value, each absent field keeps its
previous value. -/
theorem claim_C6 (prev : UserPreferences) (u : UserPreferencesUpdate) :
    (∀ v, u.interests = some v → (mergePreferences prev u).interests = v) ∧
    (u.interests = none → (mergePreferences prev u).interests = prev.interests) ∧
    (∀ v, u.mobilityLevel = some v → (mergePreferences prev u).mobilityLevel = v) ∧
    (u.mobilityLevel = none →
      (mergePreferences prev u).mobilityLevel = prev.mobilityLevel) ∧
    (∀ v, u.timePreference = some v →
      (mergePreferences prev u).timePreference = v) ∧
    (u.timePreference = none →
      (mergePreferences prev u).timePreference = prev.timePreference) := by
  refine ⟨?_, ?_, ?_, ?_, ?_, ?_⟩ <;>
    first
      | (intro v h; simp [mergePreferences, h])
      | (intro h; simp [mergePreferences, h])

/-- A concrete partial update: new interests and time preference, mobility
level untouched. -/
def sampleUpdate : UserPreferencesUpdate :=
  { interests := some ["history"], mobilityLevel := none,
    timePreference := some .morning }

/-- Concrete instance of C6: updated fields take the new values, the absent
mobility level keeps its previous value. -/
theorem claim_C6_witness :
    (mergePreferences DEFAULT_USER_PREFERENCES sampleUpdate).interests =
      ["history"] ∧
    (mergePreferences DEFAULT_USER_PREFERENCES sampleUpdate).mobilityLevel =
      DEFAULT_USER_PREFERENCES.mobilityLevel ∧
    (mergePreferences DEFAULT_USER_PREFERENCES sampleUpdate).timePreference =
      TimePreference.morning :=
  ⟨(claim_C6 DEFAULT_USER_PREFERENCES sampleUpdate).1 _ rfl,
   (claim_C6 DEFAULT_USER_PREFERENCES sampleUpdate).2.2.2.1 rfl,
   (claim_C6 DEFAULT_USER_PREFERENCES sampleUpdate).2.2.2.2.1 _ rfl⟩

/-- Claim C7: reading each persisted key before any write returns its
documented default, and a write immediately followed by a read of the same
key returns the written value. -/
theorem claim_C7 :
    (readSelectedRegion emptyStore = "" ∧
     readStartingPoint emptyStore = "" ∧
     readCurrentView emptyStore = ViewType.planning ∧
     readPrivacyMode emptyStore = false ∧
     readOfflineMode emptyStore = false ∧
     readVoiceEnabled emptyStore = false ∧
     readUserPreferences emptyStore = DEFAULT_USER_PREFERENCES) ∧
    (∀ (st : Store) (v : String),
      readSelectedRegion (writeStore st "selectedRegion" (.str v)) = v) ∧
    (∀ (st : Store) (v : String),
      readStartingPoint (writeStore st "startingPoint" (.str v)) = v) ∧
    (∀ (st : Store) (v : ViewType),
      readCurrentView (writeStore st "currentView" (.view v)) = v) ∧
    (∀ (st : Store) (v : Bool),
      readPrivacyMode (writeStore st "privacyMode" (.bool v)) = v) ∧
    (∀ (st : Store) (v : Bool),
      readOfflineMode (writeStore st "offlineMode" (.bool v)) = v) ∧
    (∀ (st : Store) (v : Bool),
      readVoiceEnabled (writeStore st "voiceEnabled" (.bool v)) = v) ∧
    (∀ (st : Store) (v : UserPreferences),
      readUserPreferences (writeStore st "userPreferences" (.prefs v)) = v) := by
  refine ⟨⟨rfl, rfl, rfl, rfl, rfl, rfl, rfl⟩, ?_, ?_, ?_, ?_, ?_, ?_, ?_⟩ <;>
    intro st v <;>
    simp [readSelectedRegion, readStartingPoint, readCurrentView,
      readPrivacyMode, readOfflineMode, readVoiceEnabled, readUserPreferences,
      readStringKey, readBoolKey, readViewKey, readPrefsKey, writeStore]

/-- Claim C8 at the code: `applyAISuggestion` only announces the suggestion's
title and performs no itinerary operation — the itinerary after the apply
action is the one from before, for every suggestion and state. -/
theorem claim_C8_apply_no_delegation (sug : AISuggestion) (s : AppState) :
    (applyAISuggestion sug s).itinerary = s.itinerary ∧
    (applyAISuggestion sug s).announcements =
      s.announcements ++ ["Applied AI suggestion: " ++ sug.title] :=
  ⟨rfl, rfl⟩

/-- Claim C9: once the single error slot holds a message, the 5-second timer
clears it at its deadline and not before, and a subsequent error overwrites
the message in the same slot and reschedules the clear. -/
theorem claim_C9 (slot : ErrorSlot) (t : Nat) (msg : String) :
    (setErrorAt t msg slot).message = some msg ∧
    (tickError (t + 5) (setErrorAt t msg slot)).message = none ∧
    (∀ u, u < t + 5 → (tickError u (setErrorAt t msg slot)).message = some msg) ∧
    (∀ (u : Nat) (msg2 : String),
      (setErrorAt u msg2 (setErrorAt t msg slot)).message = some msg2 ∧
      (tickError (u + 5)
        (setErrorAt u msg2 (setErrorAt t msg slot))).message = none) := by
  refine ⟨rfl, by simp [tickError, setErrorAt], ?_, ?_⟩
  · intro u hu
    have hne : ¬ (t + 5 = u) := by omega
    simp [tickError, setErrorAt, hne]
  · intro u msg2
    exact ⟨rfl, by simp [tickError, setErrorAt]⟩

/-- Concrete instance of C9: an error set at time 0 is still displayed at
time 2, before its 5-second deadline. -/
theorem claim_C9_witness :
    (tickError 2 (setErrorAt 0 "Failed to load weather data"
      { message := none, deadline := none })).message =
      some "Failed to load weather data" :=
  (claim_C9 { message := none, deadline := none } 0
    "Failed to load weather data").2.2.1 2 (by decide)

/-- Claim C10: the region-change handler clears the itinerary exactly when
the new region differs from the current one; invoked with the already
selected region it leaves the itinerary unchanged. -/
theorem claim_C10 (s : AppState) (region : String) :
    (handleRegionChange region s).itinerary =
      if region = s.selectedRegion then s.itinerary else [] := by
  by_cases h : region = s.selectedRegion <;>
    simp [handleRegionChange, h, clearItinerary]

end TrailQuest
